import Mathlib

/-!
Verification development for the booking engine of the xceltutors
repository.  Each feature handler is shallowly embedded as a pure Lean
function over an explicit database state (a list of booking rows);
Prisma queries become list operations, the payment gateway becomes an
explicit `Except`-valued argument, and thrown `BookingValidationError`s
become `Except.error` results carrying the error code.  Instants are
modelled as minutes (an integer timeline) except for the recurrence
expander, which needs a calendar model of the luxon `DateTime` API.
-/

/-- Role enum from prisma/schema.prisma. -/
inductive Role
  | TUTOR
  | STUDENT
  | ADMIN
  | MODERATOR
deriving DecidableEq

/-- BookingStatus enum from prisma/schema.prisma. -/
inductive BookingStatus
  | AWAITING_TUTOR_CONFIRMATION
  | AWAITING_STUDENT_CONFIRMATION
  | AWAITING_PAYMENT
  | PAYMENT_FAILED
  | SCHEDULED
  | CANCELED
  | COMPLETED
  | REFUNDED
  | AWAITING_REFUND
  | REFUND_FAILED
deriving DecidableEq

/-- BookingType enum from prisma/schema.prisma. -/
inductive BookingType
  | FREE_MEETING
  | LESSON
deriving DecidableEq

/-- User row (id, name, roles) as used by the command handlers. -/
structure User where
  id : Nat
  name : String := ""
  roles : List Role := []
deriving DecidableEq

/-- Payment row attached one-to-one to a booking. -/
structure Payment where
  sessionId : Option String := none
  sessionUrl : Option String := none
  paymentIntentId : Option String := none
  chargeId : Option String := none
deriving DecidableEq

/-- Booking row.  Instants are minutes on an integer timeline; the
participants relation is kept as the list of participant user ids. -/
structure Booking where
  id : Nat
  startTime : Int
  endTime : Int
  hostId : Nat
  participants : List Nat
  type : BookingType
  status : BookingStatus
  payment : Option Payment := none
  title : String := ""
  createdAt : Int := 0
deriving DecidableEq

/-- BookingValidationError (src/features/errors): the handlers throw an
error with a stable machine-readable code; messages are not modelled. -/
structure BookingError where
  code : String
deriving DecidableEq

/-- The spec glossary defines the active status set as
AWAITING_TUTOR_CONFIRMATION, AWAITING_STUDENT_CONFIRMATION,
AWAITING_PAYMENT, SCHEDULED.  Used only to state claims; the handlers
below use their own status lists taken from the source. -/
def specActiveStatusSet : List BookingStatus :=
  [.AWAITING_TUTOR_CONFIRMATION, .AWAITING_STUDENT_CONFIRMATION,
   .AWAITING_PAYMENT, .SCHEDULED]

namespace BookingCreate

/-! Embedding of src/backend/src/features/booking-create/index.ts
(CreateBookingCommandHandler). -/

def FREE_MEETING_DURATION_MINUTES : Int := 15

def LESSON_DURATION_MINUTES : Int := 60

/-- calculateEndTime: start plus the duration for the booking type. -/
def calculateEndTime (startDateTime : Int) (type : BookingType) : Int :=
  startDateTime +
    (if type = BookingType.FREE_MEETING then FREE_MEETING_DURATION_MINUTES
     else LESSON_DURATION_MINUTES)

/-- The status list of the findFirst inside validateNoConflicts.  The
source comment reads: check for any booking at this time, including
completed ones. -/
def conflictCheckStatuses : List BookingStatus :=
  [.COMPLETED, .SCHEDULED, .AWAITING_TUTOR_CONFIRMATION,
   .AWAITING_STUDENT_CONFIRMATION]

/-- validateNoConflicts: findFirst on bookings of the host whose
half-open interval overlaps the candidate and whose status is in
conflictCheckStatuses; a hit throws BOOKING_CONFLICT. -/
def validateNoConflicts (db : List Booking) (tutorId : Nat)
    (startDateTime endDateTime : Int) : Except BookingError Unit :=
  match db.find? (fun b =>
      decide (b.hostId = tutorId ∧ b.startTime < endDateTime ∧
        b.endTime > startDateTime ∧ b.status ∈ conflictCheckStatuses)) with
  | some _ => .error ⟨"BOOKING_CONFLICT"⟩
  | none => .ok ()

/-- determineBookingType: LESSON when a COMPLETED FREE_MEETING between
the (tutor, student) pair exists, else FREE_MEETING. -/
def determineBookingType (db : List Booking) (tutorId studentId : Nat) :
    BookingType :=
  match db.find? (fun b =>
      decide (b.hostId = tutorId ∧ b.type = BookingType.FREE_MEETING ∧
        studentId ∈ b.participants ∧ b.status = BookingStatus.COMPLETED)) with
  | some _ => BookingType.LESSON
  | none => BookingType.FREE_MEETING

end BookingCreate

/-- Claim C1, as stated by the spec, fails on the code: a COMPLETED
booking that overlaps the candidate interval is rejected with
BOOKING_CONFLICT even though COMPLETED is outside the active status
set, and an overlapping AWAITING_PAYMENT booking (which is in the
active set) is not rejected. -/
theorem c1_counterexample :
    BookingCreate.validateNoConflicts
        [{ id := 1, startTime := 100, endTime := 160, hostId := 20,
           participants := [10], type := BookingType.LESSON,
           status := BookingStatus.COMPLETED }] 20 100 160
      = .error ⟨"BOOKING_CONFLICT"⟩
    ∧ (BookingStatus.COMPLETED ∈ specActiveStatusSet) = False
    ∧ BookingCreate.validateNoConflicts
        [{ id := 1, startTime := 100, endTime := 160, hostId := 20,
           participants := [10], type := BookingType.LESSON,
           status := BookingStatus.AWAITING_PAYMENT }] 20 100 160
      = .ok ()
    ∧ (BookingStatus.AWAITING_PAYMENT ∈ specActiveStatusSet) = True := by
  refine ⟨rfl, by simp [specActiveStatusSet], rfl, by simp [specActiveStatusSet]⟩

/-- Claim C1 (amended): the conflict validation of Create Booking
rejects with BOOKING_CONFLICT exactly when some booking of the derived
tutor overlaps the candidate half-open interval with status in
COMPLETED, SCHEDULED, AWAITING_TUTOR_CONFIRMATION,
AWAITING_STUDENT_CONFIRMATION; so a COMPLETED booking does cause the
rejection and an AWAITING_PAYMENT booking does not. -/
theorem c1_amended (db : List Booking) (tutorId : Nat) (s e : Int) :
    BookingCreate.validateNoConflicts db tutorId s e
        = .error ⟨"BOOKING_CONFLICT"⟩
      ↔ ∃ b ∈ db, b.hostId = tutorId ∧ b.startTime < e ∧ b.endTime > s ∧
          b.status ∈ BookingCreate.conflictCheckStatuses := by
  unfold BookingCreate.validateNoConflicts
  constructor
  · intro h
    cases hf : db.find? (fun b =>
        decide (b.hostId = tutorId ∧ b.startTime < e ∧ b.endTime > s ∧
          b.status ∈ BookingCreate.conflictCheckStatuses)) with
    | none => rw [hf] at h; exact absurd h (by simp)
    | some b =>
      refine ⟨b, List.mem_of_find?_eq_some hf, ?_⟩
      have := List.find?_some hf
      simpa using this
  · rintro ⟨b, hmem, hprop⟩
    cases hf : db.find? (fun b =>
        decide (b.hostId = tutorId ∧ b.startTime < e ∧ b.endTime > s ∧
          b.status ∈ BookingCreate.conflictCheckStatuses)) with
    | none =>
      exact absurd (by simpa using List.find?_eq_none.mp hf b hmem) (by simp [hprop])
    | some c => rfl

/-- Claim C6: the booking type is LESSON exactly when a COMPLETED
FREE_MEETING between the derived (tutor, student) pair exists,
otherwise FREE_MEETING; and the end time is start plus 15 minutes for
FREE_MEETING and start plus 60 minutes for LESSON. -/
theorem c6_booking_type_and_duration (db : List Booking)
    (tutorId studentId : Nat) :
    (BookingCreate.determineBookingType db tutorId studentId
        = BookingType.LESSON
      ↔ ∃ b ∈ db, b.hostId = tutorId ∧ b.type = BookingType.FREE_MEETING ∧
          studentId ∈ b.participants ∧ b.status = BookingStatus.COMPLETED)
    ∧ (BookingCreate.determineBookingType db tutorId studentId
          = BookingType.FREE_MEETING
        ↔ ¬ ∃ b ∈ db, b.hostId = tutorId ∧ b.type = BookingType.FREE_MEETING ∧
            studentId ∈ b.participants ∧ b.status = BookingStatus.COMPLETED)
    ∧ (∀ s : Int, BookingCreate.calculateEndTime s BookingType.FREE_MEETING
          = s + 15)
    ∧ (∀ s : Int, BookingCreate.calculateEndTime s BookingType.LESSON
          = s + 60) := by
  have key : BookingCreate.determineBookingType db tutorId studentId
        = BookingType.LESSON
      ↔ ∃ b ∈ db, b.hostId = tutorId ∧ b.type = BookingType.FREE_MEETING ∧
          studentId ∈ b.participants ∧ b.status = BookingStatus.COMPLETED := by
    unfold BookingCreate.determineBookingType
    constructor
    · intro h
      cases hf : db.find? (fun b =>
          decide (b.hostId = tutorId ∧ b.type = BookingType.FREE_MEETING ∧
            studentId ∈ b.participants ∧
            b.status = BookingStatus.COMPLETED)) with
      | none => rw [hf] at h; exact absurd h (by simp)
      | some b =>
        refine ⟨b, List.mem_of_find?_eq_some hf, ?_⟩
        have := List.find?_some hf
        simpa using this
    · rintro ⟨b, hmem, hprop⟩
      cases hf : db.find? (fun b =>
          decide (b.hostId = tutorId ∧ b.type = BookingType.FREE_MEETING ∧
            studentId ∈ b.participants ∧
            b.status = BookingStatus.COMPLETED)) with
      | none =>
        exact absurd (by simpa using List.find?_eq_none.mp hf b hmem)
          (by simp [hprop])
      | some c => rfl
  refine ⟨key, ?_, fun s => rfl, fun s => rfl⟩
  constructor
  · intro h
    rw [← key]
    intro hL
    rw [hL] at h
    exact absurd h (by simp)
  · intro h
    have := key.not.mpr h
    cases hT : BookingCreate.determineBookingType db tutorId studentId with
    | FREE_MEETING => rfl
    | LESSON => exact absurd hT this

namespace BookingConfirm

/-! Embedding of src/backend/src/features/booking-confirm/index.ts
(ConfirmBookingCommandHandler).  The Stripe call
createOrRegenerateStripeSessionForBooking is an external collaborator
and is passed in as an `Except`-valued argument: `.ok` carries the
session data it returns, `.error` models a throw. -/

/-- Session data returned by the payment gateway. -/
structure PaymentData where
  sessionId : String
  sessionUrl : String
deriving DecidableEq

def VALID_STATUSES_FOR_CONFIRMATION : List BookingStatus :=
  [.AWAITING_TUTOR_CONFIRMATION, .AWAITING_STUDENT_CONFIRMATION]

/-- validateUserAuthorization: actor must be host or participant. -/
def validateUserAuthorization (currentUser : User) (booking : Booking) :
    Except BookingError Unit :=
  let isHost := booking.hostId == currentUser.id
  let isParticipant := booking.participants.any (fun p => p == currentUser.id)
  if !isHost && !isParticipant then .error ⟨"UNAUTHORIZED"⟩ else .ok ()

/-- validateBookingStatus: only the two awaiting-confirmation statuses
can be confirmed. -/
def validateBookingStatus (booking : Booking) : Except BookingError Unit :=
  if booking.status ∉ VALID_STATUSES_FOR_CONFIRMATION then
    .error ⟨"INVALID_STATUS"⟩
  else .ok ()

/-- determineNewStatus: FREE_MEETING goes to SCHEDULED, LESSON goes to
AWAITING_PAYMENT. -/
def determineNewStatus (booking : Booking) : BookingStatus :=
  if booking.type = BookingType.FREE_MEETING then BookingStatus.SCHEDULED
  else BookingStatus.AWAITING_PAYMENT

/-- processPayment: a gateway throw becomes
PAYMENT_SESSION_CREATION_FAILED. -/
def processPayment (gateway : Except Unit PaymentData) :
    Except BookingError PaymentData :=
  match gateway with
  | .ok pd => .ok pd
  | .error _ => .error ⟨"PAYMENT_SESSION_CREATION_FAILED"⟩

/-- The payment upsert of updateBookingWithPayment: create a row with
the session data, or update the session fields of the existing row. -/
def upsertPayment (current : Option Payment) (pd : PaymentData) : Payment :=
  match current with
  | none => { sessionId := some pd.sessionId, sessionUrl := some pd.sessionUrl }
  | some p => { p with sessionId := some pd.sessionId,
                       sessionUrl := some pd.sessionUrl }

/-- updateBookingWithPayment: one update setting the new status and
upserting the payment row. -/
def updateBookingWithPayment (db : List Booking) (booking : Booking)
    (newStatus : BookingStatus) (pd : PaymentData) : List Booking × Booking :=
  let b' := { booking with status := newStatus,
                           payment := some (upsertPayment booking.payment pd) }
  (db.map (fun x => if x.id = booking.id then b' else x), b')

/-- updateBooking: update setting only the new status. -/
def updateBooking (db : List Booking) (booking : Booking)
    (newStatus : BookingStatus) : List Booking × Booking :=
  let b' := { booking with status := newStatus }
  (db.map (fun x => if x.id = booking.id then b' else x), b')

/-- execute: load, authorize, check status, then either process the
payment and update booking and payment together (LESSON) or just update
the status (FREE_MEETING). -/
def execute (db : List Booking) (bookingId : Nat) (currentUser : User)
    (gateway : Except Unit PaymentData) :
    Except BookingError (List Booking × Booking) := do
  let some booking := db.find? (fun b => b.id == bookingId)
    | .error ⟨"BOOKING_NOT_FOUND"⟩
  validateUserAuthorization currentUser booking
  validateBookingStatus booking
  let newStatus := determineNewStatus booking
  if booking.type = BookingType.LESSON then do
    let pd ← processPayment gateway
    return updateBookingWithPayment db booking newStatus pd
  else
    return updateBooking db booking newStatus

end BookingConfirm

/-- Claim C3: on a found booking in an awaiting-confirmation status with
an authorized actor, Confirm sets a FREE_MEETING to SCHEDULED without
touching the payment; sets a LESSON to AWAITING_PAYMENT upserting the
gateway session data in the same update; and when the gateway throws it
fails with PAYMENT_SESSION_CREATION_FAILED, leaving status and payment
unchanged (no update is performed). -/
theorem c3_confirm (db : List Booking) (bookingId : Nat) (u : User)
    (booking : Booking)
    (hfind : db.find? (fun b => b.id == bookingId) = some booking)
    (hstatus : booking.status ∈ BookingConfirm.VALID_STATUSES_FOR_CONFIRMATION)
    (hauth : booking.hostId = u.id ∨ u.id ∈ booking.participants) :
    (booking.type = BookingType.FREE_MEETING →
      ∀ gw, BookingConfirm.execute db bookingId u gw
        = .ok (BookingConfirm.updateBooking db booking BookingStatus.SCHEDULED)
        ∧ (BookingConfirm.updateBooking db booking
            BookingStatus.SCHEDULED).2.payment = booking.payment)
    ∧ (booking.type = BookingType.LESSON →
        ∀ pd : BookingConfirm.PaymentData,
          BookingConfirm.execute db bookingId u (.ok pd)
            = .ok (BookingConfirm.updateBookingWithPayment db booking
                BookingStatus.AWAITING_PAYMENT pd)
          ∧ (BookingConfirm.updateBookingWithPayment db booking
              BookingStatus.AWAITING_PAYMENT pd).2.status
            = BookingStatus.AWAITING_PAYMENT
          ∧ ((BookingConfirm.updateBookingWithPayment db booking
              BookingStatus.AWAITING_PAYMENT pd).2.payment).map
              (fun p => (p.sessionId, p.sessionUrl))
            = some (some pd.sessionId, some pd.sessionUrl))
    ∧ (booking.type = BookingType.LESSON →
        BookingConfirm.execute db bookingId u (.error ())
          = .error ⟨"PAYMENT_SESSION_CREATION_FAILED"⟩) := by
  have hauthRun : BookingConfirm.validateUserAuthorization u booking
      = .ok () := by
    unfold BookingConfirm.validateUserAuthorization
    rcases hauth with h | h
    · simp [h]
    · have : booking.participants.any (fun p => p == u.id) = true := by
        simp only [List.any_eq_true]
        exact ⟨u.id, h, by simp⟩
      simp [this]
  have hstatusRun : BookingConfirm.validateBookingStatus booking = .ok () := by
    unfold BookingConfirm.validateBookingStatus
    simp [hstatus]
  refine ⟨?_, ?_, ?_⟩
  · intro htype gw
    have hnew : BookingConfirm.determineNewStatus booking
        = BookingStatus.SCHEDULED := by
      unfold BookingConfirm.determineNewStatus; simp [htype]
    constructor
    · unfold BookingConfirm.execute
      rw [hfind]
      simp only [bind, Except.bind, hauthRun, hstatusRun, hnew, htype]
      rfl
    · rfl
  · intro htype pd
    have hnew : BookingConfirm.determineNewStatus booking
        = BookingStatus.AWAITING_PAYMENT := by
      unfold BookingConfirm.determineNewStatus; simp [htype]
    refine ⟨?_, rfl, by
      cases hb : booking.payment <;>
        simp [BookingConfirm.updateBookingWithPayment,
          BookingConfirm.upsertPayment, hb]⟩
    unfold BookingConfirm.execute
    rw [hfind]
    simp only [bind, Except.bind, hauthRun, hstatusRun, hnew, htype]
    rfl
  · intro htype
    unfold BookingConfirm.execute
    rw [hfind]
    simp only [bind, Except.bind, hauthRun, hstatusRun, htype]
    rfl

/-- Claim C3 witness: a concrete LESSON booking confirmed by its host
where the gateway throws fails with PAYMENT_SESSION_CREATION_FAILED. -/
theorem c3_confirm_witness :
    BookingConfirm.execute
        [{ id := 1, startTime := 100, endTime := 160, hostId := 20,
           participants := [10], type := BookingType.LESSON,
           status := BookingStatus.AWAITING_STUDENT_CONFIRMATION }] 1
        { id := 10 } (.error ())
      = .error ⟨"PAYMENT_SESSION_CREATION_FAILED"⟩ :=
  (c3_confirm
    [{ id := 1, startTime := 100, endTime := 160, hostId := 20,
       participants := [10], type := BookingType.LESSON,
       status := BookingStatus.AWAITING_STUDENT_CONFIRMATION }] 1
    { id := 10 }
    { id := 1, startTime := 100, endTime := 160, hostId := 20,
      participants := [10], type := BookingType.LESSON,
      status := BookingStatus.AWAITING_STUDENT_CONFIRMATION }
    rfl (by decide) (by decide)).2.2 rfl

namespace CancelBooking

/-! Embedding of the CancelBookingCommandHandler
(src/features/booking-cancel).  The Stripe call
cancelStripePaymentIntent is passed in as an `Except`-valued argument:
`.ok ()` models success, `.error ()` models a throw. -/

def VALID_STATUSES_FOR_CANCELLATION : List BookingStatus :=
  [.AWAITING_TUTOR_CONFIRMATION, .AWAITING_STUDENT_CONFIRMATION,
   .SCHEDULED, .AWAITING_PAYMENT, .PAYMENT_FAILED]

/-- validateUserAuthorization: actor must be host or participant. -/
def validateUserAuthorization (currentUser : User) (booking : Booking) :
    Except BookingError Unit :=
  let isHost := booking.hostId == currentUser.id
  let isParticipant := booking.participants.any (fun p => p == currentUser.id)
  if !isHost && !isParticipant then .error ⟨"UNAUTHORIZED"⟩ else .ok ()

/-- validateBookingStatus: status must be cancellable. -/
def validateBookingStatus (booking : Booking) : Except BookingError Unit :=
  if booking.status ∉ VALID_STATUSES_FOR_CANCELLATION then
    .error ⟨"INVALID_STATUS"⟩
  else .ok ()

/-- validateAndCancelPayment: a payment row must exist and the gateway
expire call must succeed. -/
def validateAndCancelPayment (booking : Booking)
    (gateway : Except Unit Unit) : Except BookingError Unit :=
  match booking.payment with
  | none => .error ⟨"NO_PAYMENT_INFO"⟩
  | some _ =>
    match gateway with
    | .ok () => .ok ()
    | .error _ => .error ⟨"PAYMENT_CANCELLATION_FAILED"⟩

/-- The final update of execute: set the status to CANCELED. -/
def cancelUpdate (db : List Booking) (booking : Booking) :
    List Booking × Booking :=
  let b' := { booking with status := BookingStatus.CANCELED }
  (db.map (fun x => if x.id = booking.id then b' else x), b')

/-- execute: load, authorize, check status, expire the checkout session
when the booking awaits payment, then set the status to CANCELED. -/
def execute (db : List Booking) (bookingId : Nat) (currentUser : User)
    (gateway : Except Unit Unit) :
    Except BookingError (List Booking × Booking) := do
  let some booking := db.find? (fun b => b.id == bookingId)
    | .error ⟨"BOOKING_NOT_FOUND"⟩
  validateUserAuthorization currentUser booking
  validateBookingStatus booking
  if booking.status = BookingStatus.AWAITING_PAYMENT then
    validateAndCancelPayment booking gateway
  return cancelUpdate db booking

end CancelBooking

/-- Claim C5: for an authorized actor on a found booking, cancelling in
AWAITING_PAYMENT without a payment row fails with NO_PAYMENT_INFO;
cancelling in AWAITING_PAYMENT when the gateway expire call throws
fails with PAYMENT_CANCELLATION_FAILED (in both failure cases no update
is performed); and cancelling in any other cancellable status succeeds
with status CANCELED for every gateway behavior and without requiring a
payment row. -/
theorem c5_cancel (db : List Booking) (bookingId : Nat) (u : User)
    (booking : Booking)
    (hfind : db.find? (fun b => b.id == bookingId) = some booking)
    (hauth : booking.hostId = u.id ∨ u.id ∈ booking.participants) :
    (booking.status = BookingStatus.AWAITING_PAYMENT →
      booking.payment = none →
      ∀ gw, CancelBooking.execute db bookingId u gw
        = .error ⟨"NO_PAYMENT_INFO"⟩)
    ∧ (booking.status = BookingStatus.AWAITING_PAYMENT →
        booking.payment.isSome →
        CancelBooking.execute db bookingId u (.error ())
          = .error ⟨"PAYMENT_CANCELLATION_FAILED"⟩)
    ∧ (booking.status ∈ CancelBooking.VALID_STATUSES_FOR_CANCELLATION →
        booking.status ≠ BookingStatus.AWAITING_PAYMENT →
        ∀ gw, CancelBooking.execute db bookingId u gw
          = .ok (CancelBooking.cancelUpdate db booking)
          ∧ (CancelBooking.cancelUpdate db booking).2.status
            = BookingStatus.CANCELED) := by
  have hauthRun : CancelBooking.validateUserAuthorization u booking
      = .ok () := by
    unfold CancelBooking.validateUserAuthorization
    rcases hauth with h | h
    · simp [h]
    · have : booking.participants.any (fun p => p == u.id) = true := by
        simp only [List.any_eq_true]
        exact ⟨u.id, h, by simp⟩
      simp [this]
  refine ⟨?_, ?_, ?_⟩
  · intro hstatus hpay gw
    have hstatusRun : CancelBooking.validateBookingStatus booking
        = .ok () := by
      unfold CancelBooking.validateBookingStatus
      simp [hstatus, CancelBooking.VALID_STATUSES_FOR_CANCELLATION]
    unfold CancelBooking.execute
    rw [hfind]
    simp only [bind, Except.bind, hauthRun, hstatusRun, hstatus, if_pos rfl]
    unfold CancelBooking.validateAndCancelPayment
    simp [hpay]
  · intro hstatus hpay
    have hstatusRun : CancelBooking.validateBookingStatus booking
        = .ok () := by
      unfold CancelBooking.validateBookingStatus
      simp [hstatus, CancelBooking.VALID_STATUSES_FOR_CANCELLATION]
    unfold CancelBooking.execute
    rw [hfind]
    simp only [bind, Except.bind, hauthRun, hstatusRun, hstatus, if_pos rfl]
    unfold CancelBooking.validateAndCancelPayment
    rcases hp : booking.payment with _ | p
    · rw [hp] at hpay; exact absurd hpay (by simp)
    · rfl
  · intro hstatus hne gw
    have hstatusRun : CancelBooking.validateBookingStatus booking
        = .ok () := by
      unfold CancelBooking.validateBookingStatus
      simp [hstatus]
    refine ⟨?_, rfl⟩
    unfold CancelBooking.execute
    rw [hfind]
    simp only [bind, Except.bind, hauthRun, hstatusRun, if_neg hne]
    rfl

/-- Claim C5 witness: a SCHEDULED booking with no payment row is
cancelled by its participant, with the gateway modelled as throwing,
showing no payment row is required and the gateway result is not
consulted outside AWAITING_PAYMENT. -/
theorem c5_cancel_witness :
    CancelBooking.execute
        [{ id := 1, startTime := 100, endTime := 160, hostId := 20,
           participants := [10], type := BookingType.LESSON,
           status := BookingStatus.SCHEDULED }] 1
        { id := 10 } (.error ())
      = .ok (CancelBooking.cancelUpdate
          [{ id := 1, startTime := 100, endTime := 160, hostId := 20,
             participants := [10], type := BookingType.LESSON,
             status := BookingStatus.SCHEDULED }]
          { id := 1, startTime := 100, endTime := 160, hostId := 20,
            participants := [10], type := BookingType.LESSON,
            status := BookingStatus.SCHEDULED }) :=
  ((c5_cancel
    [{ id := 1, startTime := 100, endTime := 160, hostId := 20,
       participants := [10], type := BookingType.LESSON,
       status := BookingStatus.SCHEDULED }] 1
    { id := 10 }
    { id := 1, startTime := 100, endTime := 160, hostId := 20,
      participants := [10], type := BookingType.LESSON,
      status := BookingStatus.SCHEDULED }
    rfl (by decide)).2.2 (by decide) (by decide) (.error ())).1

namespace RequestRefund

/-! Embedding of the RequestRefundCommandHandler (src/unnamed/part_005).
The Stripe call createStripeRefund is passed in as an `Except`-valued
argument.  Note that the source never reads command.currentUser: no
authorization check is performed. -/

/-- validateBookingStatus: only SCHEDULED bookings can be refunded. -/
def validateBookingStatus (booking : Booking) : Except BookingError Unit :=
  if booking.status ≠ BookingStatus.SCHEDULED then .error ⟨"INVALID_STATUS"⟩
  else .ok ()

/-- validatePaymentInformation: the payment row must exist and carry a
paymentIntentId (the source tests the same field twice). -/
def validatePaymentInformation (booking : Booking) :
    Except BookingError Unit :=
  match booking.payment with
  | none => .error ⟨"NO_PAYMENT_INFO"⟩
  | some p =>
    if p.paymentIntentId = none ∧ p.paymentIntentId = none then
      .error ⟨"NO_PAYMENT_INFO"⟩
    else .ok ()

/-- processRefund: a gateway throw becomes REFUND_PROCESSING_FAILED. -/
def processRefund (gateway : Except Unit Unit) : Except BookingError Unit :=
  match gateway with
  | .ok () => .ok ()
  | .error _ => .error ⟨"REFUND_PROCESSING_FAILED"⟩

/-- The final update of execute: set the status to AWAITING_REFUND. -/
def refundUpdate (db : List Booking) (booking : Booking) :
    List Booking × Booking :=
  let b' := { booking with status := BookingStatus.AWAITING_REFUND }
  (db.map (fun x => if x.id = booking.id then b' else x), b')

set_option linter.unusedVariables false in
/-- execute: load, check status and payment info, create the refund at
the gateway, then set the status to AWAITING_REFUND.  The currentUser
argument mirrors the command shape but is never consulted, exactly as
in the source. -/
def execute (db : List Booking) (bookingId : Nat) (currentUser : User)
    (gateway : Except Unit Unit) :
    Except BookingError (List Booking × Booking) := do
  let some booking := db.find? (fun b => b.id == bookingId)
    | .error ⟨"BOOKING_NOT_FOUND"⟩
  validateBookingStatus booking
  validatePaymentInformation booking
  processRefund gateway
  return refundUpdate db booking

end RequestRefund

/-- Claim C4, as stated, fails on the code: a user who is neither the
host nor a participant of a SCHEDULED booking issues RequestRefund and
the command succeeds, moving the booking to AWAITING_REFUND; no
authorization check exists. -/
theorem c4_counterexample :
    RequestRefund.execute
        [{ id := 1, startTime := 100, endTime := 160, hostId := 20,
           participants := [10], type := BookingType.LESSON,
           status := BookingStatus.SCHEDULED,
           payment := some { paymentIntentId := some "pi_1" } }] 1
        { id := 999 } (.ok ())
      = .ok (RequestRefund.refundUpdate
          [{ id := 1, startTime := 100, endTime := 160, hostId := 20,
             participants := [10], type := BookingType.LESSON,
             status := BookingStatus.SCHEDULED,
             payment := some { paymentIntentId := some "pi_1" } }]
          { id := 1, startTime := 100, endTime := 160, hostId := 20,
            participants := [10], type := BookingType.LESSON,
            status := BookingStatus.SCHEDULED,
            payment := some { paymentIntentId := some "pi_1" } })
    ∧ (RequestRefund.refundUpdate
        [{ id := 1, startTime := 100, endTime := 160, hostId := 20,
           participants := [10], type := BookingType.LESSON,
           status := BookingStatus.SCHEDULED,
           payment := some { paymentIntentId := some "pi_1" } }]
        { id := 1, startTime := 100, endTime := 160, hostId := 20,
          participants := [10], type := BookingType.LESSON,
          status := BookingStatus.SCHEDULED,
          payment := some { paymentIntentId := some "pi_1" } }).2.status
      = BookingStatus.AWAITING_REFUND
    ∧ (999 : Nat) ≠ 20 ∧ (999 : Nat) ∉ [10] := by
  refine ⟨rfl, rfl, by decide, by decide⟩

/-- Claim C4 (amended): RequestRefund never consults the acting user
(the result is identical for every pair of users), and whenever the
found booking is SCHEDULED with a paymentIntentId and the gateway
refund succeeds, the transition to AWAITING_REFUND is performed no
matter who issued the command. -/
theorem c4_amended (db : List Booking) (bookingId : Nat)
    (gateway : Except Unit Unit) :
    (∀ u u' : User, RequestRefund.execute db bookingId u gateway
      = RequestRefund.execute db bookingId u' gateway)
    ∧ (∀ u : User, ∀ booking : Booking,
        db.find? (fun b => b.id == bookingId) = some booking →
        booking.status = BookingStatus.SCHEDULED →
        (booking.payment.bind Payment.paymentIntentId).isSome →
        gateway = .ok () →
        RequestRefund.execute db bookingId u gateway
          = .ok (RequestRefund.refundUpdate db booking)) := by
  refine ⟨fun u u' => rfl, ?_⟩
  intro u booking hfind hstatus hpay hgw
  have hstatusRun : RequestRefund.validateBookingStatus booking = .ok () := by
    unfold RequestRefund.validateBookingStatus
    simp [hstatus]
  have hpayRun : RequestRefund.validatePaymentInformation booking
      = .ok () := by
    unfold RequestRefund.validatePaymentInformation
    rcases hp : booking.payment with _ | p
    · rw [hp] at hpay; exact absurd hpay (by simp)
    · rw [hp] at hpay
      rcases hpi : p.paymentIntentId with _ | pi
      · simp [hpi] at hpay
      · simp [hpi]
  unfold RequestRefund.execute
  rw [hfind, hgw]
  simp only [bind, Except.bind, hstatusRun, hpayRun]
  rfl

/-- Claim C4 (amended) witness: the concrete run of the counterexample,
obtained through the amended theorem. -/
theorem c4_amended_witness :
    RequestRefund.execute
        [{ id := 1, startTime := 100, endTime := 160, hostId := 20,
           participants := [10], type := BookingType.LESSON,
           status := BookingStatus.SCHEDULED,
           payment := some { paymentIntentId := some "pi_1" } }] 1
        { id := 42 } (.ok ())
      = .ok (RequestRefund.refundUpdate
          [{ id := 1, startTime := 100, endTime := 160, hostId := 20,
             participants := [10], type := BookingType.LESSON,
             status := BookingStatus.SCHEDULED,
             payment := some { paymentIntentId := some "pi_1" } }]
          { id := 1, startTime := 100, endTime := 160, hostId := 20,
            participants := [10], type := BookingType.LESSON,
            status := BookingStatus.SCHEDULED,
            payment := some { paymentIntentId := some "pi_1" } }) :=
  (c4_amended
    [{ id := 1, startTime := 100, endTime := 160, hostId := 20,
       participants := [10], type := BookingType.LESSON,
       status := BookingStatus.SCHEDULED,
       payment := some { paymentIntentId := some "pi_1" } }] 1 (.ok ())).2
    { id := 42 }
    { id := 1, startTime := 100, endTime := 160, hostId := 20,
      participants := [10], type := BookingType.LESSON,
      status := BookingStatus.SCHEDULED,
      payment := some { paymentIntentId := some "pi_1" } }
    rfl rfl (by decide) rfl

namespace Reschedule

/-! Embedding of the RescheduleBookingCommandHandler
(src/backend/src/features/booking-reschedule/index.ts, the draft whose
validateUserPermissions checks the non-reschedulable statuses before
the per-role checks).  The new start time arrives parsed: `none` models
a string DateTime.fromISO could not parse. -/

def FREE_MEETING_DURATION_MINUTES : Int := 15

def LESSON_DURATION_MINUTES : Int := 60

/-- getUserRoles: isTutor means host with the TUTOR role; isStudent
means a participant with the STUDENT role. -/
structure UserRoles where
  isTutor : Bool
  isStudent : Bool
  isParticipant : Bool

def getUserRoles (booking : Booking) (user : User) : UserRoles :=
  let isTutor := booking.hostId == user.id && user.roles.contains Role.TUTOR
  let isStudent := user.roles.contains Role.STUDENT &&
    booking.participants.contains user.id
  { isTutor := isTutor, isStudent := isStudent,
    isParticipant := isTutor || isStudent }

def nonReschedulableStatuses : List BookingStatus :=
  [.COMPLETED, .CANCELED, .AWAITING_REFUND, .REFUND_FAILED, .REFUNDED]

/-- validateUserPermissions: UNAUTHORIZED for strangers, INVALID_STATUS
for the blocked statuses, then the per-role turn checks. -/
def validateUserPermissions (booking : Booking) (currentUser : User) :
    Except BookingError Unit :=
  let userRoles := getUserRoles booking currentUser
  if !userRoles.isParticipant then .error ⟨"UNAUTHORIZED"⟩
  else if booking.status ∈ nonReschedulableStatuses then
    .error ⟨"INVALID_STATUS"⟩
  else if userRoles.isTutor &&
      !(booking.status == BookingStatus.AWAITING_TUTOR_CONFIRMATION) then
    .error ⟨"INVALID_STATUS_TUTOR"⟩
  else if userRoles.isStudent &&
      !(booking.status == BookingStatus.AWAITING_STUDENT_CONFIRMATION) then
    .error ⟨"INVALID_STATUS_STUDENT"⟩
  else .ok ()

/-- parseAndValidateDateTime: INVALID_DATE on parse failure, PAST_TIME
when not after now, SAME_TIME when equal to the current start. -/
def parseAndValidateDateTime (dateTime : Option Int) (now : Int)
    (currentBooking : Booking) : Except BookingError Int :=
  match dateTime with
  | none => .error ⟨"INVALID_DATE"⟩
  | some t =>
    if t ≤ now then .error ⟨"PAST_TIME"⟩
    else if t = currentBooking.startTime then .error ⟨"SAME_TIME"⟩
    else .ok t

/-- calculateEndTime: start plus the duration of the booking type. -/
def calculateEndTime (startTime : Int) (type : BookingType) : Int :=
  startTime +
    (if type = BookingType.FREE_MEETING then FREE_MEETING_DURATION_MINUTES
     else LESSON_DURATION_MINUTES)

/-- validateNoTimeConflicts: another booking of the host, excluding the
current one, overlapping the new interval with status SCHEDULED or
awaiting confirmation. -/
def validateNoTimeConflicts (db : List Booking) (hostId : Nat)
    (startTime endTime : Int) (currentBookingId : Nat) :
    Except BookingError Unit :=
  match db.find? (fun b =>
      decide (b.id ≠ currentBookingId ∧ b.hostId = hostId ∧
        b.startTime < endTime ∧ b.endTime > startTime ∧
        b.status ∈ ([.SCHEDULED, .AWAITING_TUTOR_CONFIRMATION,
          .AWAITING_STUDENT_CONFIRMATION] : List BookingStatus))) with
  | some _ => .error ⟨"BOOKING_CONFLICT"⟩
  | none => .ok ()

/-- determineNewStatus: the awaiting direction flips based on whether
the acting user is the host. -/
def determineNewStatus (booking : Booking) (currentUser : User) :
    BookingStatus :=
  if booking.hostId == currentUser.id then
    BookingStatus.AWAITING_STUDENT_CONFIRMATION
  else BookingStatus.AWAITING_TUTOR_CONFIRMATION

/-- updateBooking: write the new times and the flipped status. -/
def updateBooking (db : List Booking) (booking : Booking)
    (currentUser : User) (newStartTime newEndTime : Int) :
    List Booking × Booking :=
  let b' := { booking with startTime := newStartTime,
                           endTime := newEndTime,
                           status := determineNewStatus booking currentUser }
  (db.map (fun x => if x.id = booking.id then b' else x), b')

/-- execute: load, validate permissions and status, parse and validate
the time, check conflicts, then update. -/
def execute (db : List Booking) (bookingId : Nat)
    (startTime : Option Int) (now : Int) (currentUser : User) :
    Except BookingError (List Booking × Booking) := do
  let some booking := db.find? (fun b => b.id == bookingId)
    | .error ⟨"BOOKING_NOT_FOUND"⟩
  validateUserPermissions booking currentUser
  let newStartTime ← parseAndValidateDateTime startTime now booking
  let newEndTime := calculateEndTime newStartTime booking.type
  validateNoTimeConflicts db booking.hostId newStartTime newEndTime booking.id
  return updateBooking db booking currentUser newStartTime newEndTime

end Reschedule

/-- Claim C7, as stated, fails on the code: a tutor host rescheduling a
COMPLETED booking is rejected with INVALID_STATUS, not with the claimed
INVALID_STATUS_TUTOR, because the non-reschedulable status check runs
before the per-role check. -/
theorem c7_counterexample :
    Reschedule.execute
        [{ id := 1, startTime := 100, endTime := 160, hostId := 20,
           participants := [10], type := BookingType.LESSON,
           status := BookingStatus.COMPLETED }] 1
        (some 500) 0 { id := 20, roles := [Role.TUTOR] }
      = .error ⟨"INVALID_STATUS"⟩
    ∧ (BookingError.mk "INVALID_STATUS" ≠ ⟨"INVALID_STATUS_TUTOR"⟩) := by
  exact ⟨rfl, by decide⟩

/-- Claim C7 (amended): a booking in COMPLETED, CANCELED,
AWAITING_REFUND, REFUND_FAILED or REFUNDED is rejected with
INVALID_STATUS for host and participant alike; outside those statuses a
tutor host may reschedule only from AWAITING_TUTOR_CONFIRMATION
(otherwise INVALID_STATUS_TUTOR) and a student participant who is not
the host only from AWAITING_STUDENT_CONFIRMATION (otherwise
INVALID_STATUS_STUDENT); on success the awaiting direction flips:
tutor to AWAITING_STUDENT_CONFIRMATION, student to
AWAITING_TUTOR_CONFIRMATION. -/
theorem c7_amended (db : List Booking) (bookingId : Nat)
    (startTime : Option Int) (now : Int) (u : User) (booking : Booking)
    (hfind : db.find? (fun b => b.id == bookingId) = some booking) :
    ((Reschedule.getUserRoles booking u).isParticipant = true →
      booking.status ∈ Reschedule.nonReschedulableStatuses →
      Reschedule.execute db bookingId startTime now u
        = .error ⟨"INVALID_STATUS"⟩)
    ∧ ((Reschedule.getUserRoles booking u).isTutor = true →
        booking.status ∉ Reschedule.nonReschedulableStatuses →
        booking.status ≠ BookingStatus.AWAITING_TUTOR_CONFIRMATION →
        Reschedule.execute db bookingId startTime now u
          = .error ⟨"INVALID_STATUS_TUTOR"⟩)
    ∧ ((Reschedule.getUserRoles booking u).isStudent = true →
        (Reschedule.getUserRoles booking u).isTutor = false →
        booking.status ∉ Reschedule.nonReschedulableStatuses →
        booking.status ≠ BookingStatus.AWAITING_STUDENT_CONFIRMATION →
        Reschedule.execute db bookingId startTime now u
          = .error ⟨"INVALID_STATUS_STUDENT"⟩)
    ∧ ((Reschedule.getUserRoles booking u).isTutor = true →
        (Reschedule.getUserRoles booking u).isStudent = false →
        booking.status = BookingStatus.AWAITING_TUTOR_CONFIRMATION →
        ∀ t, startTime = some t → now < t → t ≠ booking.startTime →
        Reschedule.validateNoTimeConflicts db booking.hostId t
            (Reschedule.calculateEndTime t booking.type) booking.id = .ok () →
        Reschedule.execute db bookingId startTime now u
          = .ok (Reschedule.updateBooking db booking u t
              (Reschedule.calculateEndTime t booking.type))
          ∧ (Reschedule.updateBooking db booking u t
              (Reschedule.calculateEndTime t booking.type)).2.status
            = BookingStatus.AWAITING_STUDENT_CONFIRMATION)
    ∧ ((Reschedule.getUserRoles booking u).isStudent = true →
        (Reschedule.getUserRoles booking u).isTutor = false →
        booking.hostId ≠ u.id →
        booking.status = BookingStatus.AWAITING_STUDENT_CONFIRMATION →
        ∀ t, startTime = some t → now < t → t ≠ booking.startTime →
        Reschedule.validateNoTimeConflicts db booking.hostId t
            (Reschedule.calculateEndTime t booking.type) booking.id = .ok () →
        Reschedule.execute db bookingId startTime now u
          = .ok (Reschedule.updateBooking db booking u t
              (Reschedule.calculateEndTime t booking.type))
          ∧ (Reschedule.updateBooking db booking u t
              (Reschedule.calculateEndTime t booking.type)).2.status
            = BookingStatus.AWAITING_TUTOR_CONFIRMATION) := by
  refine ⟨?_, ?_, ?_, ?_, ?_⟩
  · intro hpart hblocked
    have hperm : Reschedule.validateUserPermissions booking u
        = .error ⟨"INVALID_STATUS"⟩ := by
      unfold Reschedule.validateUserPermissions
      simp [hpart, hblocked]
    unfold Reschedule.execute
    rw [hfind]
    simp only [bind, Except.bind, hperm]
  · intro htutor hnotblocked hne
    have hpart : (Reschedule.getUserRoles booking u).isParticipant = true := by
      unfold Reschedule.getUserRoles at htutor ⊢
      simp_all
    have hperm : Reschedule.validateUserPermissions booking u
        = .error ⟨"INVALID_STATUS_TUTOR"⟩ := by
      unfold Reschedule.validateUserPermissions
      simp [hpart, hnotblocked, htutor, hne]
    unfold Reschedule.execute
    rw [hfind]
    simp only [bind, Except.bind, hperm]
  · intro hstudent htutor hnotblocked hne
    have hpart : (Reschedule.getUserRoles booking u).isParticipant = true := by
      unfold Reschedule.getUserRoles at hstudent ⊢
      simp_all
    have hperm : Reschedule.validateUserPermissions booking u
        = .error ⟨"INVALID_STATUS_STUDENT"⟩ := by
      unfold Reschedule.validateUserPermissions
      simp [hpart, hnotblocked, htutor, hstudent, hne]
    unfold Reschedule.execute
    rw [hfind]
    simp only [bind, Except.bind, hperm]
  · intro htutor hstudent hstatus t ht hnow hneq hconf
    have hpart : (Reschedule.getUserRoles booking u).isParticipant = true := by
      unfold Reschedule.getUserRoles at htutor ⊢
      simp_all
    have hperm : Reschedule.validateUserPermissions booking u = .ok () := by
      unfold Reschedule.validateUserPermissions
      simp [hpart, hstatus, htutor, hstudent,
        Reschedule.nonReschedulableStatuses]
    have hhost : booking.hostId = u.id := by
      unfold Reschedule.getUserRoles at htutor
      simp at htutor
      exact htutor.1
    have hparse : Reschedule.parseAndValidateDateTime startTime now booking
        = .ok t := by
      unfold Reschedule.parseAndValidateDateTime
      rw [ht]
      have h1 : ¬ (t ≤ now) := by omega
      simp [h1, hneq]
    constructor
    · unfold Reschedule.execute
      rw [hfind]
      simp only [bind, Except.bind, hperm, hparse, hconf]
      rfl
    · unfold Reschedule.updateBooking Reschedule.determineNewStatus
      simp [hhost]
  · intro hstudent htutor hhost hstatus t ht hnow hneq hconf
    have hpart : (Reschedule.getUserRoles booking u).isParticipant = true := by
      unfold Reschedule.getUserRoles at hstudent ⊢
      simp_all
    have hperm : Reschedule.validateUserPermissions booking u = .ok () := by
      unfold Reschedule.validateUserPermissions
      simp [hpart, hstatus, htutor, hstudent,
        Reschedule.nonReschedulableStatuses]
    have hparse : Reschedule.parseAndValidateDateTime startTime now booking
        = .ok t := by
      unfold Reschedule.parseAndValidateDateTime
      rw [ht]
      have h1 : ¬ (t ≤ now) := by omega
      simp [h1, hneq]
    constructor
    · unfold Reschedule.execute
      rw [hfind]
      simp only [bind, Except.bind, hperm, hparse, hconf]
      rfl
    · unfold Reschedule.updateBooking Reschedule.determineNewStatus
      simp [hhost]

/-- Claim C7 (amended) witness: a student participant reschedules a
booking awaiting student confirmation; the booking flips to awaiting
tutor confirmation. -/
theorem c7_amended_witness :
    Reschedule.execute
        [{ id := 1, startTime := 100, endTime := 160, hostId := 20,
           participants := [10], type := BookingType.LESSON,
           status := BookingStatus.AWAITING_STUDENT_CONFIRMATION }] 1
        (some 500) 0 { id := 10, roles := [Role.STUDENT] }
      = .ok (Reschedule.updateBooking
          [{ id := 1, startTime := 100, endTime := 160, hostId := 20,
             participants := [10], type := BookingType.LESSON,
             status := BookingStatus.AWAITING_STUDENT_CONFIRMATION }]
          { id := 1, startTime := 100, endTime := 160, hostId := 20,
            participants := [10], type := BookingType.LESSON,
            status := BookingStatus.AWAITING_STUDENT_CONFIRMATION }
          { id := 10, roles := [Role.STUDENT] } 500
          (Reschedule.calculateEndTime 500 BookingType.LESSON)) :=
  ((c7_amended
    [{ id := 1, startTime := 100, endTime := 160, hostId := 20,
       participants := [10], type := BookingType.LESSON,
       status := BookingStatus.AWAITING_STUDENT_CONFIRMATION }] 1
    (some 500) 0 { id := 10, roles := [Role.STUDENT] }
    { id := 1, startTime := 100, endTime := 160, hostId := 20,
      participants := [10], type := BookingType.LESSON,
      status := BookingStatus.AWAITING_STUDENT_CONFIRMATION }
    rfl).2.2.2.2 (by decide) (by decide) (by decide) (by decide)
    500 rfl (by decide) (by decide) rfl).1

namespace TimeSlotValidator

/-! Embedding of src/backend/src/features/helpers/time-slot-validator.ts.
The HH:mm string is split and fed through parseInt; a component that is
not a number is modelled as `none`. -/

def VALID_END_TIMES : List Int := [0, 15, 30, 45]

def LESSON_DURATION_MINUTES : Int := 60

/-- validateLessonTimeSpan: the end hour of a 60-minute lesson computed
at hour granularity; reaching hour 24 throws INVALID_TIME_SLOT. -/
def validateLessonTimeSpan (hours minutes : Int) : Except BookingError Unit :=
  let endHour := hours + (minutes + LESSON_DURATION_MINUTES) / 60
  if endHour ≥ 24 then .error ⟨"INVALID_TIME_SLOT"⟩ else .ok ()

/-- parseAndValidateTime: `ok none` models the null return for values
off the grid or out of range; the midnight check may throw. -/
def parseAndValidateTime (hours minutes : Option Int) :
    Except BookingError (Option (Int × Int)) :=
  match hours, minutes with
  | some h, some m =>
    if h < 0 ∨ h > 23 ∨ m ∉ VALID_END_TIMES then .ok none
    else do
      validateLessonTimeSpan h m
      return some (h, m)
  | _, _ => .ok none

/-- The per-slot body of validateTimeSlots: a null parse result throws
INVALID_TIME_SLOT. -/
def validateSingleSlot (hours minutes : Option Int) :
    Except BookingError Unit :=
  match parseAndValidateTime hours minutes with
  | .error e => .error e
  | .ok none => .error ⟨"INVALID_TIME_SLOT"⟩
  | .ok (some _) => .ok ()

end TimeSlotValidator

/-- Claim C9, as stated, fails on the code: the slot 23:00 satisfies
the claimed acceptance condition (minutes on the grid, hour in range,
and 23*60 + 0 + 60 = 24*60 which is allowed by the non-strict bound),
yet the validator rejects it with INVALID_TIME_SLOT because the
computed end hour 24 triggers the past-midnight check. -/
theorem c9_counterexample :
    TimeSlotValidator.validateSingleSlot (some 23) (some 0)
      = .error ⟨"INVALID_TIME_SLOT"⟩
    ∧ (0 : Int) ∈ TimeSlotValidator.VALID_END_TIMES
    ∧ (0 : Int) ≤ 23 ∧ (23 : Int) ≤ 23
    ∧ (23 * 60 + 0 + 60 : Int) ≤ 24 * 60 := by
  exact ⟨rfl, by decide, by decide, by decide, by decide⟩

/-- Evaluation key for the per-slot validation: off-grid or
out-of-range values and lessons reaching hour 24 are rejected with
INVALID_TIME_SLOT, everything else is accepted. -/
theorem validateSingleSlot_eval (h m : Int) :
    TimeSlotValidator.validateSingleSlot (some h) (some m)
      = if h < 0 ∨ h > 23 ∨ m ∉ TimeSlotValidator.VALID_END_TIMES then
          .error ⟨"INVALID_TIME_SLOT"⟩
        else if h + (m + TimeSlotValidator.LESSON_DURATION_MINUTES) / 60 ≥ 24
          then .error ⟨"INVALID_TIME_SLOT"⟩
        else .ok () := by
  unfold TimeSlotValidator.validateSingleSlot
    TimeSlotValidator.parseAndValidateTime
    TimeSlotValidator.validateLessonTimeSpan
  by_cases h1 : h < 0 ∨ h > 23 ∨ m ∉ TimeSlotValidator.VALID_END_TIMES
  · simp [h1]
  · by_cases h2 : h + (m + TimeSlotValidator.LESSON_DURATION_MINUTES) / 60 ≥ 24
    · simp [h1, h2, bind, Except.bind]
    · simp [h1, h2, bind, Except.bind, pure, Except.pure]

/-- Minutes on the 15-minute grid make the lesson span exactly one
hour. -/
theorem grid_minutes_div (m : Int)
    (hm : m ∈ TimeSlotValidator.VALID_END_TIMES) :
    (m + TimeSlotValidator.LESSON_DURATION_MINUTES) / 60 = 1 ∧
      0 ≤ m ∧ m ≤ 45 := by
  simp [TimeSlotValidator.VALID_END_TIMES] at hm
  rcases hm with rfl | rfl | rfl | rfl <;>
    refine ⟨by norm_num [TimeSlotValidator.LESSON_DURATION_MINUTES],
      by norm_num, by norm_num⟩

/-- Claim C9 (amended): a slot is accepted exactly when its minutes are
in 0, 15, 30, 45, its hour is in 0..23 and hour*60 + minute + 60 is
strictly below 24*60 (a lesson ending exactly at midnight is also
rejected); every rejected slot fails with INVALID_TIME_SLOT. -/
theorem c9_amended (hours minutes : Option Int) :
    (TimeSlotValidator.validateSingleSlot hours minutes = .ok ()
      ↔ ∃ h m : Int, hours = some h ∧ minutes = some m ∧
          m ∈ TimeSlotValidator.VALID_END_TIMES ∧ 0 ≤ h ∧ h ≤ 23 ∧
          h * 60 + m + 60 < 24 * 60)
    ∧ (TimeSlotValidator.validateSingleSlot hours minutes ≠ .ok () →
        TimeSlotValidator.validateSingleSlot hours minutes
          = .error ⟨"INVALID_TIME_SLOT"⟩) := by
  rcases hours with _ | h
  · refine ⟨?_, fun _ => rfl⟩
    constructor
    · intro hok
      exact absurd hok (by
        rcases minutes with _ | m <;>
          simp [TimeSlotValidator.validateSingleSlot,
            TimeSlotValidator.parseAndValidateTime])
    · rintro ⟨h, m, hh, _⟩
      exact absurd hh (by simp)
  rcases minutes with _ | m
  · refine ⟨?_, fun _ => rfl⟩
    constructor
    · intro hok
      exact absurd hok (by
        simp [TimeSlotValidator.validateSingleSlot,
          TimeSlotValidator.parseAndValidateTime])
    · rintro ⟨h1, m, _, hm, _⟩
      exact absurd hm (by simp)
  constructor
  · rw [validateSingleSlot_eval]
    constructor
    · intro hok
      by_cases h1 : h < 0 ∨ h > 23 ∨ m ∉ TimeSlotValidator.VALID_END_TIMES
      · rw [if_pos h1] at hok; exact absurd hok (by simp)
      · rw [if_neg h1] at hok
        push_neg at h1
        obtain ⟨hh0, hh23, hgrid⟩ := h1
        obtain ⟨hdiv, hm0, hm45⟩ := grid_minutes_div m hgrid
        by_cases h2 :
            h + (m + TimeSlotValidator.LESSON_DURATION_MINUTES) / 60 ≥ 24
        · rw [if_pos h2] at hok; exact absurd hok (by simp)
        · rw [hdiv] at h2
          exact ⟨h, m, rfl, rfl, hgrid, by omega, by omega, by omega⟩
    · rintro ⟨h1, m1, hh, hm, hgrid, hh0, hh23, hmid⟩
      obtain ⟨rfl⟩ : h = h1 := by injection hh
      obtain ⟨rfl⟩ : m = m1 := by injection hm
      obtain ⟨hdiv, hm0, hm45⟩ := grid_minutes_div m hgrid
      rw [if_neg (by push_neg; exact ⟨by omega, by omega, hgrid⟩),
        if_neg (by rw [hdiv]; omega)]
  · rw [validateSingleSlot_eval]
    intro hne
    by_cases h1 : h < 0 ∨ h > 23 ∨ m ∉ TimeSlotValidator.VALID_END_TIMES
    · rw [if_pos h1]
    · rw [if_neg h1] at hne ⊢
      by_cases h2 :
          h + (m + TimeSlotValidator.LESSON_DURATION_MINUTES) / 60 ≥ 24
      · rw [if_pos h2]
      · rw [if_neg h2] at hne
        exact absurd rfl hne

/-- Insertion of one element into a list sorted by a boolean
comparator; used to model the sort the handlers apply. -/
def sortInsert {α : Type} (le : α → α → Bool) (a : α) : List α → List α
  | [] => [a]
  | b :: l => if le a b then a :: b :: l else b :: sortInsert le a l

/-- Sorting by a boolean comparator (the embeddings only rely on the
sorted list being a rearrangement of the input). -/
def sortBy {α : Type} (le : α → α → Bool) : List α → List α
  | [] => []
  | a :: l => sortInsert le a (sortBy le l)

theorem mem_sortInsert {α : Type} (le : α → α → Bool) (a x : α)
    (l : List α) : x ∈ sortInsert le a l ↔ x = a ∨ x ∈ l := by
  induction l with
  | nil => simp [sortInsert]
  | cons b l ih =>
    unfold sortInsert
    by_cases h : le a b
    · simp [h]
    · simp [h, ih]
      tauto

theorem mem_sortBy {α : Type} (le : α → α → Bool) (x : α) (l : List α) :
    x ∈ sortBy le l ↔ x ∈ l := by
  induction l with
  | nil => simp [sortBy]
  | cons b l ih => simp [sortBy, mem_sortInsert, ih]

namespace GetBookings

/-! Embedding of src/backend/src/features/booking-get-all/index.ts
(GetBookingsCommandHandler).  The rows carry the included host and
participant user objects; the optional date filters arrive parsed
(`some none` models a present but unparsable ISO string). -/

/-- A booking row with its included host and participants. -/
structure BookingRow where
  id : Nat
  startTime : Int
  endTime : Int
  createdAt : Int
  host : User
  participants : List User
  type : BookingType
  status : BookingStatus
  title : String
deriving DecidableEq

inductive BookingSortField
  | START_TIME
  | CREATED_AT
deriving DecidableEq

inductive SortDirection
  | asc
  | desc
deriving DecidableEq

structure SortSpec where
  field : BookingSortField
  direction : SortDirection

structure GetFilters where
  startDate : Option (Option Int) := none
  endDate : Option (Option Int) := none
  status : List BookingStatus := []
  type : Option BookingType := none
  search : Option String := none

structure GetBookingsCommand where
  currentUser : User
  page : Option Int := none
  limit : Option Int := none
  sort : Option SortSpec := none
  filters : Option GetFilters := none

def DEFAULT_PAGE : Int := 1
def DEFAULT_LIMIT : Int := 10
def MAX_LIMIT : Int := 100
def DEFAULT_SORT : SortSpec := ⟨.START_TIME, .desc⟩

/-- Case-insensitive substring test modelling the insensitive contains
of the search filter. -/
def containsInsensitive (s t : String) : Bool :=
  let s' := (s.toLower).toList
  let t' := (t.toLower).toList
  (List.range (s'.length + 1)).any (fun i => t'.isPrefixOf (s'.drop i))

/-- The base OR of buildWhereClause: the requesting user is host or
participant. -/
def baseWhere (uid : Nat) (b : BookingRow) : Bool :=
  b.host.id == uid || b.participants.any (fun p => p.id == uid)

/-- The date-range condition pushed when at least one bound parsed. -/
def dateFilterCond (startBound endBound : Option Int) (b : BookingRow) :
    Bool :=
  (match startBound with
   | some s => decide (s ≤ b.startTime)
   | none => true) &&
  (match endBound with
   | some e => decide (b.endTime ≤ e)
   | none => true)

/-- The search condition: title, host name or a participant name
contains the trimmed term, case-insensitively. -/
def searchCond (term : String) (b : BookingRow) : Bool :=
  containsInsensitive b.title term || containsInsensitive b.host.name term ||
    b.participants.any (fun p => containsInsensitive p.name term)

/-- The conditions buildWhereClause pushes after the base condition, in
source order: status, type, date range, search.  The source starts from
the singleton array holding the base condition and appends, so the
final array is the base condition consed onto this list. -/
def extraConds (f : GetFilters) : List (BookingRow → Bool) :=
  (if f.status.length ≠ 0 then
    [fun (b : BookingRow) => f.status.contains b.status] else [])
  ++ (match f.type with
      | some t => [fun (b : BookingRow) => b.type == t]
      | none => [])
  ++ (let startBound := f.startDate.bind (fun x => x)
      let endBound := f.endDate.bind (fun x => x)
      if startBound.isSome || endBound.isSome then
        [dateFilterCond startBound endBound] else [])
  ++ (match f.search with
      | some raw =>
        if raw.trim ≠ "" then [searchCond raw.trim] else []
      | none => [])

/-- buildWhereClause: the base OR alone when no filters were given,
else the AND of the base condition and the pushed conditions. -/
def buildWhereClause (cmd : GetBookingsCommand) : BookingRow → Bool :=
  fun b =>
    match cmd.filters with
    | none => baseWhere cmd.currentUser.id b
    | some f =>
      ((fun b => baseWhere cmd.currentUser.id b) :: extraConds f).all
        (fun c => c b)

/-- The comparator realizing buildOrderByClause: primary field per the
sort spec, the other field as the secondary tiebreaker, both in the
requested direction. -/
def orderLe (sort : SortSpec) (a b : BookingRow) : Bool :=
  let key : BookingRow → Int × Int :=
    match sort.field with
    | .START_TIME => fun r => (r.startTime, r.createdAt)
    | .CREATED_AT => fun r => (r.createdAt, r.startTime)
  match sort.direction with
  | .asc => decide ((key a).1 < (key b).1 ∨
      ((key a).1 = (key b).1 ∧ (key a).2 ≤ (key b).2))
  | .desc => decide ((key b).1 < (key a).1 ∨
      ((key b).1 = (key a).1 ∧ (key b).2 ≤ (key a).2))

structure PaginatedResult where
  items : List BookingRow
  total : Nat
  page : Int
  limit : Int

/-- execute: clamp page and limit, filter by the where clause, sort,
then paginate with skip and take. -/
def execute (db : List BookingRow) (cmd : GetBookingsCommand) :
    PaginatedResult :=
  let page : Int := max 1 (match cmd.page with
    | some p => if p = 0 then DEFAULT_PAGE else p
    | none => DEFAULT_PAGE)
  let limit : Int := min MAX_LIMIT (max 1 (match cmd.limit with
    | some l => if l = 0 then DEFAULT_LIMIT else l
    | none => DEFAULT_LIMIT))
  let skip := (page - 1) * limit
  let sort := cmd.sort.getD DEFAULT_SORT
  let filtered := db.filter (buildWhereClause cmd)
  let items := ((sortBy (orderLe sort) filtered).drop skip.toNat).take
    limit.toNat
  { items := items, total := filtered.length, page := page, limit := limit }

end GetBookings

/-- Claim C10: whatever page, limit, sort, status, type, date-range or
search options are supplied, every booking returned by the list query
has the requesting user as its host or among its participants. -/
theorem c10_get_all_scoped (db : List GetBookings.BookingRow)
    (cmd : GetBookings.GetBookingsCommand) (b : GetBookings.BookingRow)
    (hb : b ∈ (GetBookings.execute db cmd).items) :
    b.host.id = cmd.currentUser.id ∨
      cmd.currentUser.id ∈ b.participants.map User.id := by
  have hfiltered : b ∈ db.filter (GetBookings.buildWhereClause cmd) := by
    have h1 := List.mem_of_mem_take hb
    have h2 := List.mem_of_mem_drop h1
    exact (mem_sortBy _ _ _).mp h2
  have hwhere : GetBookings.buildWhereClause cmd b = true :=
    List.of_mem_filter hfiltered
  have hbase : GetBookings.baseWhere cmd.currentUser.id b = true := by
    unfold GetBookings.buildWhereClause at hwhere
    rcases hf : cmd.filters with _ | f
    · rw [hf] at hwhere; exact hwhere
    · rw [hf] at hwhere
      have := (List.all_eq_true.mp hwhere)
        (fun b => GetBookings.baseWhere cmd.currentUser.id b)
        (List.mem_cons_self _ _)
      exact this
  unfold GetBookings.baseWhere at hbase
  simp only [Bool.or_eq_true, beq_iff_eq, List.any_eq_true] at hbase
  rcases hbase with h | ⟨p, hp, hpe⟩
  · exact Or.inl h
  · exact Or.inr (by
      simp only [List.mem_map]
      exact ⟨p, hp, by simpa using hpe⟩)

/-- Claim C10 witness: a two-row database where only one booking
involves the requesting user; the returned row is scoped to the user. -/
theorem c10_get_all_scoped_witness :
    ({ id := 1, startTime := 100, endTime := 160, createdAt := 0,
       host := { id := 20 }, participants := [{ id := 10 }],
       type := BookingType.LESSON, status := BookingStatus.SCHEDULED,
       title := "a" } : GetBookings.BookingRow).host.id
        = ({ currentUser := { id := 20 } } :
            GetBookings.GetBookingsCommand).currentUser.id
      ∨ ({ currentUser := { id := 20 } } :
          GetBookings.GetBookingsCommand).currentUser.id
        ∈ ({ id := 1, startTime := 100, endTime := 160, createdAt := 0,
             host := { id := 20 }, participants := [{ id := 10 }],
             type := BookingType.LESSON, status := BookingStatus.SCHEDULED,
             title := "a" } : GetBookings.BookingRow).participants.map
            User.id :=
  c10_get_all_scoped
    [{ id := 1, startTime := 100, endTime := 160, createdAt := 0,
       host := { id := 20 }, participants := [{ id := 10 }],
       type := BookingType.LESSON, status := BookingStatus.SCHEDULED,
       title := "a" },
     { id := 2, startTime := 300, endTime := 360, createdAt := 0,
       host := { id := 30 }, participants := [{ id := 40 }],
       type := BookingType.LESSON, status := BookingStatus.SCHEDULED,
       title := "b" }]
    { currentUser := { id := 20 } }
    { id := 1, startTime := 100, endTime := 160, createdAt := 0,
      host := { id := 20 }, participants := [{ id := 10 }],
      type := BookingType.LESSON, status := BookingStatus.SCHEDULED,
      title := "a" }
    (by decide)

namespace Webhook

/-! Embedding of the payment webhook endpoint (src/unnamed/part_012)
over the mock booking store (src/lib/mock.ts) and the BookingService
(src/services/bookingService.ts).

The handler methods return promises that the switch statement in
`webhook` does NOT await, so only the part of a handler that runs
synchronously before its first await can influence the HTTP response:
for handlePaymentIntent that is the metadata check (the method is not
async and throws synchronously on missing metadata before calling the
async updateBookingStatus), while handleRefund and handleChargeRefund
are async functions whose bodies run entirely inside the returned
promise.  Any rejection of an un-awaited promise happens after the
response `Webhook processed successfully, 200` has been produced and
never reaches the catch block.  `webhookResponse` models the response,
`webhookEffect` models the store once the dispatched promise has
settled. -/

/-- Booking of src/lib/mock.ts, keeping the fields the webhook path
reads. -/
structure MBooking where
  id : Nat
  status : BookingStatus
  hostUsername : String := ""
  participantsUsernames : List String := []
  payment : Option Payment := none
deriving DecidableEq

/-- The typed events of the five handled webhook event types, each
carrying the bookingId from its metadata when present. -/
inductive StripeEvent
  | paymentIntentSucceeded (bookingId : Option Nat)
  | paymentIntentFailed (bookingId : Option Nat)
  | chargeRefunded (bookingId : Option Nat)
  | refundCreated (bookingId : Option Nat)
  | refundFailed (bookingId : Option Nat)
  | unhandled
deriving DecidableEq

/-- BookingService.getBooking: find by id or throw. -/
def getBooking (db : List MBooking) (bookingId : Nat) :
    Except String MBooking :=
  match db.find? (fun b => b.id == bookingId) with
  | some b => .ok b
  | none => .error "Booking not found"

/-- BookingService.updateBookingStatus: load the booking (throwing when
absent) and save it with the new status. -/
def updateBookingStatus (db : List MBooking) (bookingId : Nat)
    (newStatus : BookingStatus) : Except String (List MBooking) :=
  match getBooking db bookingId with
  | .error e => .error e
  | .ok _ =>
    .ok (db.map (fun b =>
      if b.id = bookingId then { b with status := newStatus } else b))

/-- The synchronous prefix of WebhookHandlers.handlePaymentIntent: it
throws before any await when the metadata carries no bookingId,
otherwise it starts the (un-awaited) status update. -/
def handlePaymentIntentSync (bookingId : Option Nat) :
    Except String Nat :=
  match bookingId with
  | none => .error "Booking ID not found in payment intent metadata"
  | some bid => .ok bid

/-- The HTTP status code the webhook endpoint returns.  The dispatched
handler promises are not awaited, so for the payment-intent events only
the synchronous metadata check can turn the response into a 400, and
for the refund and charge events (async handlers) the response is
always 200 once the signature verified. -/
def webhookResponse (signaturePresent : Bool)
    (event : Except Unit StripeEvent) : Nat :=
  if !signaturePresent then 400
  else
    match event with
    | .error _ => 400
    | .ok e =>
      match e with
      | .paymentIntentSucceeded md | .paymentIntentFailed md =>
        match handlePaymentIntentSync md with
        | .error _ => 400
        | .ok _ => 200
      | .chargeRefunded _ | .refundCreated _ | .refundFailed _ => 200
      | .unhandled => 200

/-- The booking store once the dispatched promise has settled: the
status update applies when its checks pass, and a rejected promise
(missing metadata, booking not found, unexpected pre-status) leaves
the store unchanged. -/
def webhookEffect (db : List MBooking) (signaturePresent : Bool)
    (event : Except Unit StripeEvent) : List MBooking :=
  if !signaturePresent then db
  else
    match event with
    | .error _ => db
    | .ok e =>
      let runUpdate := fun (md : Option Nat) (newStatus : BookingStatus)
          (expected : Option BookingStatus) =>
        match md with
        | none => db
        | some bid =>
          match getBooking db bid with
          | .error _ => db
          | .ok b =>
            match expected with
            | some exp =>
              if b.status ≠ exp then db
              else
                match updateBookingStatus db bid newStatus with
                | .ok db' => db'
                | .error _ => db
            | none =>
              match updateBookingStatus db bid newStatus with
              | .ok db' => db'
              | .error _ => db
      match e with
      | .paymentIntentSucceeded md =>
        runUpdate md BookingStatus.SCHEDULED none
      | .paymentIntentFailed md =>
        runUpdate md BookingStatus.PAYMENT_FAILED none
      | .chargeRefunded md =>
        runUpdate md BookingStatus.REFUNDED
          (some BookingStatus.AWAITING_REFUND)
      | .refundCreated md =>
        runUpdate md BookingStatus.AWAITING_REFUND
          (some BookingStatus.AWAITING_REFUND)
      | .refundFailed md =>
        runUpdate md BookingStatus.REFUND_FAILED
          (some BookingStatus.AWAITING_REFUND)
      | .unhandled => db

end Webhook

/-- Claim C2 names the intended behavior, and the code misses it: for a
payment_intent.succeeded event whose metadata references bookingId 999
while the store holds no booking 999, the endpoint replies 200 (success)
even though the status update it dispatched fails with booking not
found, because the switch never awaits the handler promise; the store
is left unmutated, but the claimed 4xx response (which would make the
gateway redeliver) is never produced, and in general success is
returned before the update has committed. -/
theorem c2_webhook_bug :
    Webhook.webhookResponse true
        (.ok (Webhook.StripeEvent.paymentIntentSucceeded (some 999))) = 200
    ∧ Webhook.updateBookingStatus [] 999 BookingStatus.SCHEDULED
      = .error "Booking not found"
    ∧ Webhook.webhookEffect [] true
        (.ok (Webhook.StripeEvent.paymentIntentSucceeded (some 999))) = []
    ∧ Webhook.webhookResponse true
        (.ok (Webhook.StripeEvent.paymentIntentSucceeded none)) = 400 := by
  exact ⟨rfl, rfl, rfl, rfl⟩

namespace Recurrence

/-! Embedding of the recurrence expander: BookingDateGenerator
(src/unnamed/part_023) as driven by
CreateRecurringBookingsCommandHandler.execute
(src/backend/src/features/booking-recurring/index.ts), which passes
startDate = DateTime.now().setZone(UTC).startOf(day).

The luxon UTC DateTime is modelled as a calendar record
(year, month, day, minute-of-day) together with the luxon weekday
number (1 = Monday .. 7 = Sunday), kept as a cached field that every
arithmetic operation advances consistently; chronological comparison is
through the order embedding toOrd.  The prisma RecurrencePattern enum
has exactly WEEKLY, BIWEEKLY and MONTHLY, so the default branch of
getNextDate (throw INVALID_RECURRENCE_PATTERN) is unreachable and the
embedded getNextDate is total. -/

inductive WeekDay
  | MONDAY
  | TUESDAY
  | WEDNESDAY
  | THURSDAY
  | FRIDAY
  | SATURDAY
  | SUNDAY
deriving DecidableEq

/-- getWeekdayNumber (src/unnamed/part_028): luxon numbering,
1 = Monday .. 7 = Sunday. -/
def getWeekdayNumber : WeekDay → Nat
  | .MONDAY => 1
  | .TUESDAY => 2
  | .WEDNESDAY => 3
  | .THURSDAY => 4
  | .FRIDAY => 5
  | .SATURDAY => 6
  | .SUNDAY => 7

inductive RecurrencePattern
  | WEEKLY
  | BIWEEKLY
  | MONTHLY
deriving DecidableEq

/-- A luxon UTC DateTime: calendar date, minute of day, and the luxon
weekday number as a cached field. -/
structure DT where
  y : Nat
  mo : Nat
  d : Nat
  minuteOfDay : Nat
  wd : Nat
deriving DecidableEq

def isLeapYear (y : Nat) : Bool :=
  (y % 4 == 0 && y % 100 != 0) || y % 400 == 0

def daysInMonth (y mo : Nat) : Nat :=
  if mo = 2 then (if isLeapYear y then 29 else 28)
  else if mo = 4 ∨ mo = 6 ∨ mo = 9 ∨ mo = 11 then 30 else 31

/-- Well-formed calendar values. -/
def Valid (dt : DT) : Prop :=
  1 ≤ dt.mo ∧ dt.mo ≤ 12 ∧ 1 ≤ dt.d ∧ dt.d ≤ daysInMonth dt.y dt.mo ∧
    dt.minuteOfDay < 1440 ∧ 1 ≤ dt.wd ∧ dt.wd ≤ 7

instance (dt : DT) : Decidable (Valid dt) := by
  unfold Valid; infer_instance

/-- Order embedding of calendar values into minutes; lexicographic on
(year, month, day, minute) via a mixed radix, hence chronological on
valid values. -/
def toOrd (dt : DT) : Nat :=
  ((dt.y * 12 + dt.mo) * 31 + dt.d) * 1440 + dt.minuteOfDay

def nextWd (w : Nat) : Nat := w % 7 + 1

/-- One day forward, carrying over month and year ends. -/
def incrementDay (dt : DT) : DT :=
  if dt.d < daysInMonth dt.y dt.mo then
    { dt with d := dt.d + 1, wd := nextWd dt.wd }
  else if dt.mo < 12 then
    { dt with mo := dt.mo + 1, d := 1, wd := nextWd dt.wd }
  else
    { dt with y := dt.y + 1, mo := 1, d := 1, wd := nextWd dt.wd }

def plusDays (dt : DT) : Nat → DT
  | 0 => dt
  | n + 1 => plusDays (incrementDay dt) n

/-- luxon plus weeks. -/
def plusWeeks (dt : DT) (n : Nat) : DT := plusDays dt (7 * n)

/-- luxon plus minutes, with day carry. -/
def plusMinutes (dt : DT) (m : Nat) : DT :=
  let t := dt.minuteOfDay + m
  plusDays { dt with minuteOfDay := t % 1440 } (t / 1440)

/-- luxon startOf day. -/
def startOfDay (dt : DT) : DT := { dt with minuteOfDay := 0 }

/-- luxon set hour and minute. -/
def setTime (dt : DT) (hours minutes : Nat) : DT :=
  { dt with minuteOfDay := hours * 60 + minutes }

/-- luxon plus one month: month advances with year carry and the day is
clamped to the length of the target month; the cached weekday advances
by the number of days this adds. -/
def plusMonths1 (dt : DT) : DT :=
  let y' := if dt.mo < 12 then dt.y else dt.y + 1
  let mo' := if dt.mo < 12 then dt.mo + 1 else 1
  let d' := min dt.d (daysInMonth y' mo')
  let k := (daysInMonth dt.y dt.mo - dt.d) + d'
  { y := y', mo := mo', d := d', minuteOfDay := dt.minuteOfDay,
    wd := (dt.wd - 1 + k) % 7 + 1 }

theorem daysInMonth_ge (y mo : Nat) : 28 ≤ daysInMonth y mo := by
  unfold daysInMonth
  split
  · split <;> norm_num
  · split <;> norm_num

theorem daysInMonth_le (y mo : Nat) : daysInMonth y mo ≤ 31 := by
  unfold daysInMonth
  split
  · split <;> norm_num
  · split <;> norm_num

theorem wd_incrementDay (dt : DT) : (incrementDay dt).wd = nextWd dt.wd := by
  unfold incrementDay
  split
  · rfl
  · split <;> rfl

theorem valid_incrementDay {dt : DT} (h : Valid dt) :
    Valid (incrementDay dt) := by
  obtain ⟨h1, h2, h3, h4, h5, h6, h7⟩ := h
  unfold incrementDay
  split_ifs with hlt hmo
  · have := daysInMonth_ge dt.y dt.mo
    unfold Valid nextWd
    try dsimp only
    omega
  · have := daysInMonth_ge dt.y (dt.mo + 1)
    unfold Valid nextWd
    try dsimp only
    omega
  · have := daysInMonth_ge (dt.y + 1) 1
    unfold Valid nextWd
    try dsimp only
    omega

theorem toOrd_incrementDay {dt : DT} (h : Valid dt) :
    toOrd dt < toOrd (incrementDay dt) := by
  obtain ⟨h1, h2, h3, h4, h5, h6, h7⟩ := h
  have hle := daysInMonth_le dt.y dt.mo
  unfold incrementDay
  split_ifs with hlt hmo
  · unfold toOrd
    try dsimp only
    omega
  · unfold toOrd
    try dsimp only
    omega
  · unfold toOrd
    try dsimp only
    omega

theorem valid_plusDays {dt : DT} (h : Valid dt) (n : Nat) :
    Valid (plusDays dt n) := by
  induction n generalizing dt with
  | zero => exact h
  | succ n ih => exact ih (valid_incrementDay h)

theorem toOrd_plusDays_le {dt : DT} (h : Valid dt) (n : Nat) :
    toOrd dt ≤ toOrd (plusDays dt n) := by
  induction n generalizing dt with
  | zero => exact le_rfl
  | succ n ih =>
    have := toOrd_incrementDay h
    have := ih (valid_incrementDay h)
    calc toOrd dt ≤ toOrd (incrementDay dt) := by omega
    _ ≤ toOrd (plusDays (incrementDay dt) n) := ih (valid_incrementDay h)

theorem toOrd_plusDays_lt {dt : DT} (h : Valid dt) {n : Nat} (hn : 0 < n) :
    toOrd dt < toOrd (plusDays dt n) := by
  cases n with
  | zero => exact absurd hn (by norm_num)
  | succ n =>
    have h1 := toOrd_incrementDay h
    have h2 := toOrd_plusDays_le (valid_incrementDay h) n
    calc toOrd dt < toOrd (incrementDay dt) := h1
    _ ≤ toOrd (plusDays (incrementDay dt) n) := h2

theorem valid_plusMonths1 {dt : DT} (h : Valid dt) :
    Valid (plusMonths1 dt) := by
  obtain ⟨h1, h2, h3, h4, h5, h6, h7⟩ := h
  unfold plusMonths1 Valid
  by_cases hm : dt.mo < 12
  · have hge := daysInMonth_ge dt.y (dt.mo + 1)
    simp only [if_pos hm]
    try dsimp only
    omega
  · have hge := daysInMonth_ge (dt.y + 1) 1
    simp only [if_neg hm]
    try dsimp only
    omega

theorem toOrd_plusMonths1 {dt : DT} (h : Valid dt) :
    toOrd dt < toOrd (plusMonths1 dt) := by
  obtain ⟨h1, h2, h3, h4, h5, h6, h7⟩ := h
  have hle := daysInMonth_le dt.y dt.mo
  unfold plusMonths1 toOrd
  by_cases hm : dt.mo < 12
  · have hge := daysInMonth_ge dt.y (dt.mo + 1)
    simp only [if_pos hm]
    try dsimp only
    omega
  · have hge := daysInMonth_ge (dt.y + 1) 1
    simp only [if_neg hm]
    try dsimp only
    omega

/-- getNextDate (src/unnamed/part_023): step by the pattern; the throw
on an unsupported pattern is unreachable with the three-valued enum. -/
def getNextDate (currentDate : DT) (pattern : RecurrencePattern) : DT :=
  match pattern with
  | .WEEKLY => plusWeeks currentDate 1
  | .BIWEEKLY => plusWeeks currentDate 2
  | .MONTHLY => plusMonths1 currentDate

theorem valid_getNextDate {dt : DT} (h : Valid dt)
    (pattern : RecurrencePattern) : Valid (getNextDate dt pattern) := by
  cases pattern with
  | WEEKLY => exact valid_plusDays h 7
  | BIWEEKLY => exact valid_plusDays h 14
  | MONTHLY => exact valid_plusMonths1 h

theorem toOrd_getNextDate {dt : DT} (h : Valid dt)
    (pattern : RecurrencePattern) : toOrd dt < toOrd (getNextDate dt pattern) := by
  cases pattern with
  | WEEKLY => exact toOrd_plusDays_lt h (by norm_num)
  | BIWEEKLY => exact toOrd_plusDays_lt h (by norm_num)
  | MONTHLY => exact toOrd_plusMonths1 h

end Recurrence

namespace Recurrence

/-- A recurring time slot; start times are HH:mm strings in the source.
Modelled from the spec: BookingUtils.getTimeFromSlot is not under src/,
and the spec fixes slot times as HH:mm time-of-day values, so the
embedded slot carries the parsed hour and minute. -/
structure TimeSlot where
  weekDay : WeekDay
  hours : Nat
  minutes : Nat
deriving DecidableEq

/-- Modelled from the spec: getTimeFromSlot returns the hours and
minutes of the HH:mm slot time. -/
def getTimeFromSlot (slot : TimeSlot) : Nat × Nat :=
  (slot.hours, slot.minutes)

/-- Slots that passed TimeSlotValidator upstream: hour and minute in
range (the validator is stricter still, this is all the generator
needs). -/
def SlotValid (s : TimeSlot) : Prop := s.hours ≤ 23 ∧ s.minutes ≤ 59

instance (s : TimeSlot) : Decidable (SlotValid s) := by
  unfold SlotValid; infer_instance

theorem getWeekdayNumber_bounds (w : WeekDay) :
    1 ≤ getWeekdayNumber w ∧ getWeekdayNumber w ≤ 7 := by
  cases w <;> exact ⟨by decide, by decide⟩

theorem valid_setTime_startOfDay {dt : DT} (h : Valid dt)
    {hours minutes : Nat} (hh : hours ≤ 23) (hmm : minutes ≤ 59) :
    Valid (setTime (startOfDay dt) hours minutes) := by
  obtain ⟨h1, h2, h3, h4, h5, h6, h7⟩ := h
  unfold setTime startOfDay Valid
  try dsimp only
  omega

theorem wd_plusDays_one (dt : DT) : (plusDays dt 1).wd = nextWd dt.wd := by
  show (plusDays (incrementDay dt) 0).wd = nextWd dt.wd
  exact wd_incrementDay dt

/-- The weekday-seek loop of initializeSlotDate: step one day forward
until the luxon weekday matches the target. -/
def seekWeekday (target : Nat) (dt : DT) (h : Valid dt)
    (ht : 1 ≤ target ∧ target ≤ 7) : { r : DT // Valid r } :=
  if hEq : dt.wd = target then ⟨dt, h⟩
  else seekWeekday target (plusDays dt 1) (valid_plusDays h 1) ht
termination_by (target + 7 - dt.wd) % 7
decreasing_by
  obtain ⟨_, _, _, _, _, h6, h7⟩ := h
  rw [wd_plusDays_one]
  unfold nextWd
  omega

/-- initializeSlotDate: today at the slot time (the hours and minutes
of getTimeFromSlot), advanced to the slot weekday, skipping one week
when the matched instant is today but already past now. -/
def initializeSlotDate (startDate : DT) (slot : TimeSlot) (now : DT)
    (hv : Valid startDate) (hs : SlotValid slot) : { r : DT // Valid r } :=
  let c1 := seekWeekday (getWeekdayNumber slot.weekDay)
    (setTime (startOfDay startDate) (getTimeFromSlot slot).1
      (getTimeFromSlot slot).2)
    (valid_setTime_startOfDay hv hs.1 hs.2)
    (getWeekdayNumber_bounds slot.weekDay)
  if c1.val.wd = startDate.wd ∧ toOrd c1.val < toOrd now then
    ⟨getNextDate c1.val .WEEKLY, valid_getNextDate c1.property .WEEKLY⟩
  else c1

/-- One generated instance: start and end per the 60-minute lesson
duration. -/
structure BookingDate where
  startTime : DT
  endTime : DT
deriving DecidableEq

def LESSON_DURATION_MINUTES : Nat := 60

/-- The per-slot while loop of generateBookingDates: emit instances
strictly before endDate, stepping by the pattern. -/
def genLoop (pattern : RecurrencePattern) (endDate : DT) (current : DT)
    (h : Valid current) : List BookingDate :=
  if hlt : toOrd current < toOrd endDate then
    { startTime := current,
      endTime := plusMinutes current LESSON_DURATION_MINUTES } ::
      genLoop pattern endDate (getNextDate current pattern)
        (valid_getNextDate h pattern)
  else []
termination_by toOrd endDate - toOrd current
decreasing_by
  have := toOrd_getNextDate h pattern
  omega

/-- The for-loop over the slots, concatenating each slot's emitted
instances in order. -/
def genSlots (startDate : DT) (pattern : RecurrencePattern) (now : DT)
    (hv : Valid startDate) :
    (slots : List TimeSlot) → (∀ s ∈ slots, SlotValid s) → List BookingDate
  | [], _ => []
  | s :: rest, hs =>
    let init := initializeSlotDate startDate s now hv (hs s (by simp))
    genLoop pattern (plusMonths1 startDate) init.val init.property
      ++ genSlots startDate pattern now hv rest
        (fun x hx => hs x (by simp [hx]))

/-- generateBookingDates: endDate is startDate plus one month; emit per
slot, then sort ascending by start instant. -/
def generateBookingDates (timeSlots : List TimeSlot) (startDate : DT)
    (pattern : RecurrencePattern) (now : DT) (hv : Valid startDate)
    (hs : ∀ s ∈ timeSlots, SlotValid s) : List BookingDate :=
  sortBy (fun a b => decide (toOrd a.startTime ≤ toOrd b.startTime))
    (genSlots startDate pattern now hv timeSlots hs)

theorem genLoop_bound (pattern : RecurrencePattern) (endDate : DT) :
    ∀ n (current : DT) (h : Valid current),
      toOrd endDate - toOrd current ≤ n →
      ∀ bd ∈ genLoop pattern endDate current h,
        toOrd bd.startTime < toOrd endDate := by
  intro n
  induction n with
  | zero =>
    intro current h hn bd hbd
    rw [genLoop] at hbd
    split at hbd
    · omega
    · exact absurd hbd (by simp)
  | succ n ih =>
    intro current h hn bd hbd
    rw [genLoop] at hbd
    split at hbd
    · rcases List.mem_cons.mp hbd with rfl | hbd'
      · assumption
      · have hstep := toOrd_getNextDate h pattern
        exact ih (getNextDate current pattern) (valid_getNextDate h pattern)
          (by omega) bd hbd'
    · exact absurd hbd (by simp)

theorem genSlots_bound (startDate : DT) (pattern : RecurrencePattern)
    (now : DT) (hv : Valid startDate) :
    ∀ (slots : List TimeSlot) (hs : ∀ s ∈ slots, SlotValid s),
      ∀ bd ∈ genSlots startDate pattern now hv slots hs,
        toOrd bd.startTime < toOrd (plusMonths1 startDate) := by
  intro slots
  induction slots with
  | nil => intro hs bd hbd; exact absurd hbd (by simp [genSlots])
  | cons s rest ih =>
    intro hs bd hbd
    rw [genSlots] at hbd
    rcases List.mem_append.mp hbd with hL | hR
    · exact genLoop_bound pattern (plusMonths1 startDate) _ _ _ le_rfl bd hL
    · exact ih _ bd hR

end Recurrence

/-- Claim C8: with the handler-supplied start date (now truncated to
00:00 UTC), every instance emitted by the recurrence date generator,
whatever the pattern and however many valid slots are given, starts
strictly before the horizon end, namely today at 00:00 UTC plus one
month; the per-slot loop steps by one or two weeks or one month and
stops before the first instance at or past the horizon. -/
theorem c8_recurrence_bound (timeSlots : List Recurrence.TimeSlot)
    (pattern : Recurrence.RecurrencePattern) (now : Recurrence.DT)
    (hv : Recurrence.Valid now)
    (hs : ∀ s ∈ timeSlots, Recurrence.SlotValid s)
    (hv0 : Recurrence.Valid (Recurrence.startOfDay now)) :
    ∀ bd ∈ Recurrence.generateBookingDates timeSlots
        (Recurrence.startOfDay now) pattern now hv0 hs,
      Recurrence.toOrd bd.startTime
        < Recurrence.toOrd (Recurrence.plusMonths1
            (Recurrence.startOfDay now)) := by
  intro bd hbd
  unfold Recurrence.generateBookingDates at hbd
  have hmem := (mem_sortBy _ _ _).mp hbd
  exact Recurrence.genSlots_bound (Recurrence.startOfDay now) pattern now
    hv0 timeSlots hs bd hmem

/-- Evaluation of the weekday seek for the concrete witness run: the
start already lies on the requested Monday. -/
theorem seekWeekday_eval_monday
    (h : Recurrence.Valid (Recurrence.setTime
      (Recurrence.startOfDay (Recurrence.startOfDay ⟨2026, 10, 12, 0, 1⟩))
      (Recurrence.getTimeFromSlot ⟨Recurrence.WeekDay.MONDAY, 10, 0⟩).1
      (Recurrence.getTimeFromSlot ⟨Recurrence.WeekDay.MONDAY, 10, 0⟩).2))
    (ht : 1 ≤ Recurrence.getWeekdayNumber Recurrence.WeekDay.MONDAY ∧
      Recurrence.getWeekdayNumber Recurrence.WeekDay.MONDAY ≤ 7) :
    Recurrence.seekWeekday
      (Recurrence.getWeekdayNumber Recurrence.WeekDay.MONDAY)
      (Recurrence.setTime
        (Recurrence.startOfDay (Recurrence.startOfDay ⟨2026, 10, 12, 0, 1⟩))
        (Recurrence.getTimeFromSlot ⟨Recurrence.WeekDay.MONDAY, 10, 0⟩).1
        (Recurrence.getTimeFromSlot ⟨Recurrence.WeekDay.MONDAY, 10, 0⟩).2)
      h ht
      = ⟨⟨2026, 10, 12, 600, 1⟩, by decide⟩ := by
  rw [Recurrence.seekWeekday]
  norm_num [Recurrence.getWeekdayNumber, Recurrence.setTime,
    Recurrence.startOfDay, Recurrence.getTimeFromSlot]

/-- Evaluation of initializeSlotDate for the concrete witness run. -/
theorem initializeSlotDate_eval_monday (hv : Recurrence.Valid
      (Recurrence.startOfDay ⟨2026, 10, 12, 0, 1⟩))
    (hs : Recurrence.SlotValid ⟨Recurrence.WeekDay.MONDAY, 10, 0⟩) :
    Recurrence.initializeSlotDate
      (Recurrence.startOfDay ⟨2026, 10, 12, 0, 1⟩)
      ⟨Recurrence.WeekDay.MONDAY, 10, 0⟩ ⟨2026, 10, 12, 0, 1⟩ hv hs
      = ⟨⟨2026, 10, 12, 600, 1⟩, by decide⟩ := by
  unfold Recurrence.initializeSlotDate
  simp only [seekWeekday_eval_monday]
  norm_num [Recurrence.toOrd, Recurrence.startOfDay]

/-- Claim C8 witness: one MONTHLY Monday 10:00 slot expanded from
Monday 2026-10-12 00:00 UTC emits the instance of that same day, which
the theorem bounds by the one-month horizon. -/
theorem c8_recurrence_bound_witness :
    Recurrence.toOrd
        ((⟨⟨2026, 10, 12, 600, 1⟩,
          Recurrence.plusMinutes ⟨2026, 10, 12, 600, 1⟩ 60⟩ :
            Recurrence.BookingDate).startTime)
      < Recurrence.toOrd (Recurrence.plusMonths1
          (Recurrence.startOfDay ⟨2026, 10, 12, 0, 1⟩)) :=
  c8_recurrence_bound [⟨Recurrence.WeekDay.MONDAY, 10, 0⟩] .MONTHLY
    ⟨2026, 10, 12, 0, 1⟩ (by decide) (by decide) (by decide)
    ⟨⟨2026, 10, 12, 600, 1⟩,
      Recurrence.plusMinutes ⟨2026, 10, 12, 600, 1⟩ 60⟩
    (by
      unfold Recurrence.generateBookingDates
      rw [Recurrence.genSlots]
      rw [Recurrence.genSlots]
      simp only [initializeSlotDate_eval_monday]
      rw [Recurrence.genLoop]
      norm_num [Recurrence.toOrd, Recurrence.plusMonths1,
        Recurrence.startOfDay, Recurrence.daysInMonth,
        Recurrence.isLeapYear, Recurrence.LESSON_DURATION_MINUTES]
      rw [Recurrence.genLoop]
      norm_num [Recurrence.toOrd, Recurrence.getNextDate,
        Recurrence.plusMonths1, Recurrence.daysInMonth,
        Recurrence.isLeapYear]
      simp [sortBy, sortInsert])
